import Mathlib

/-!
Verification development for the restraint-score calculator
(`Restraints_quality_calculator.py`): a shallow embedding of the
input reader (`read_lengths`, `read_restraint_table`) and the
score evaluator (`compute_restraint_score`), followed by theorems
about them.
-/

namespace Restraints

/-- Configuration constant `D0 = 1.8` from the source. -/
def D0 : ℝ := 1.8

/-- Required table columns, in the source's tuple order
(`REQUIRED_COLUMNS`). -/
def REQUIRED_COLUMNS : List String :=
  ["prot x coor", "prot y coor", "prot z coor", "sl", "wi", "dij"]

/-- A spreadsheet cell: its raw textual content together with the result
of numeric coercion (`pd.to_numeric(·, errors="coerce")` / `float(·)`):
`some v` when the cell coerces to the number `v`, `none` when coercion
fails or the cell is empty (NaN). -/
structure Cell where
  raw : String
  num : Option ℝ

/-- A raw grid as read with `pd.read_excel(path, header=None)`:
rows of cells, no header interpretation. -/
abbrev Grid := List (List Cell)

/-- `sheet.iat[r, c]`: the cell at 0-indexed row `r`, column `c`;
`none` when the grid is too small. -/
def iat (g : Grid) (r c : Nat) : Option Cell :=
  (g.get? r).bind (fun row => row.get? c)

/-- `float(sheet.iat[r, c])` for a length cell: look up the fixed cell
and coerce it to a float. -/
def lengthCell (g : Grid) (r c : Nat) : Option ℝ :=
  (iat g r c).bind Cell.num

/-- `LENGTH_CELLS`: the fixed (row, column) coordinates of the four
length parameters, 0-indexed (B2..B5 of the sheet). -/
def LENGTH_CELLS : List (String × Nat × Nat) :=
  [("Ls", (1, 1)), ("Lx", (2, 1)), ("Ly", (3, 1)), ("Lz", (4, 1))]

/-- `read_lengths`: read Ls/Lx/Ly/Lz from the fixed cells (1,1)..(4,1);
fails (`none`) when a cell is absent or non-numeric. -/
def read_lengths (g : Grid) : Option (ℝ × ℝ × ℝ × ℝ) := do
  let ls ← lengthCell g 1 1
  let lx ← lengthCell g 2 1
  let ly ← lengthCell g 3 1
  let lz ← lengthCell g 4 1
  pure (ls, lx, ly, lz)

/-- One row of the restraint table as read from the sheet: an
association list from column name to cell. -/
abbrev Row := List (String × Cell)

/-- The restraint table region as read with
`pd.read_excel(path, skiprows=6)`: the header (column names) and the
data rows. -/
structure RawTable where
  columns : List String
  rows : List Row

/-- Numeric coercion of one required cell of a row:
`pd.to_numeric(df[c], errors="coerce")` evaluated at this row —
`none` when the cell is absent or fails coercion. -/
def coerced (row : Row) (c : String) : Option ℝ :=
  (row.lookup c).bind Cell.num

/-- A cleaned restraint record: the six required fields, all numeric,
plus the untouched cells of the non-required columns. -/
structure Record where
  x : ℝ
  y : ℝ
  z : ℝ
  sl : ℝ
  wi : ℝ
  dij : ℝ
  extra : List (String × Cell)

/-- Cleaning of one row: keep it iff all six required fields coerce
(`df.dropna(subset=REQUIRED_COLUMNS)` keeps exactly these rows);
non-required cells are carried through unchanged. -/
def cleanRow (row : Row) : Option Record :=
  match coerced row "prot x coor", coerced row "prot y coor",
        coerced row "prot z coor", coerced row "sl",
        coerced row "wi", coerced row "dij" with
  | some x, some y, some z, some sl, some wi, some dij =>
      some ⟨x, y, z, sl, wi, dij,
            row.filter (fun p => !(REQUIRED_COLUMNS.contains p.1))⟩
  | _, _, _, _, _, _ => none

/-- Errors raised by `read_restraint_table`: the `ValueError` listing the
missing required columns, and the `ValueError` for no rows surviving
cleaning. -/
inductive TableError where
  | missingColumns : List String → TableError
  | emptyData : TableError
deriving Repr, DecidableEq

/-- `read_restraint_table`: check the required columns, coerce them to
numeric, drop rows with any missing required value, and fail when no
row remains. -/
def read_restraint_table (t : RawTable) : Except TableError (List Record) :=
  let missing := REQUIRED_COLUMNS.filter (fun c => !(t.columns.contains c))
  if missing.isEmpty then
    let recs := t.rows.filterMap cleanRow
    if recs.isEmpty then .error .emptyData else .ok recs
  else
    .error (.missingColumns missing)

/-- `Series.mean()`: arithmetic mean of a list of reals. -/
noncomputable def mean (l : List ℝ) : ℝ := l.sum / l.length

/-- Distance weighting term `fdij = exp(-(dij - D0))`. -/
noncomputable def fdij (r : Record) : ℝ := Real.exp (-(r.dij - D0))

/-- Combined weight `omega_ij = wi * fdij`. -/
noncomputable def omega_ij (r : Record) : ℝ := r.wi * fdij r

/-- Protein centroid coordinate `mu_x = df["prot x coor"].mean()`. -/
noncomputable def mu_x (rs : List Record) : ℝ := mean (rs.map Record.x)

/-- Protein centroid coordinate `mu_y`. -/
noncomputable def mu_y (rs : List Record) : ℝ := mean (rs.map Record.y)

/-- Protein centroid coordinate `mu_z`. -/
noncomputable def mu_z (rs : List Record) : ℝ := mean (rs.map Record.z)

/-- Peptide centroid `mu_s = df["sl"].mean()`. -/
noncomputable def mu_s (rs : List Record) : ℝ := mean (rs.map Record.sl)

/-- Per-record protein dispersion term `sigma_P`. -/
noncomputable def sigma_P (rs : List Record) (Lx Ly Lz : ℝ) (r : Record) : ℝ :=
  (((r.x - mu_x rs) / Lx) ^ 2 +
   ((r.y - mu_y rs) / Ly) ^ 2 +
   ((r.z - mu_z rs) / Lz) ^ 2) / rs.length

/-- Per-record peptide dispersion term `sigma_L`. -/
noncomputable def sigma_L (rs : List Record) (Ls : ℝ) (r : Record) : ℝ :=
  ((r.sl - mu_s rs) / Ls) ^ 2 / rs.length

/-- The final score of line 120 of the source:
`(df["omega_ij"] * (df["sigma_P"] + df["sigma_L"])).sum() * n`. -/
noncomputable def score (rs : List Record) (Ls Lx Ly Lz : ℝ) : ℝ :=
  ((rs.map (fun r => omega_ij r * (sigma_P rs Lx Ly Lz r + sigma_L rs Ls r))).sum)
    * rs.length

/-- Simplified formula named by the spec's cancellation note (written from
the spec's words, for comparison with `score`): the per-record division
by n and the final multiplication by n both removed. -/
noncomputable def simplifiedScore (rs : List Record) (Ls Lx Ly Lz : ℝ) : ℝ :=
  (rs.map (fun r => omega_ij r *
    (((r.x - mu_x rs) / Lx) ^ 2 + ((r.y - mu_y rs) / Ly) ^ 2 +
     ((r.z - mu_z rs) / Lz) ^ 2 + ((r.sl - mu_s rs) / Ls) ^ 2))).sum

/-- Index of the last occurrence of a character satisfying `p`
(Python's `str.rfind`, with `none` for "not found"). -/
def rlast (p : Char → Bool) : List Char → Option Nat
  | [] => none
  | c :: cs =>
    match rlast p cs with
    | some i => some (i + 1)
    | none => if p c then some 0 else none

/-- Character-list core of `os.path.splitext(path)[0]`: drop the
extension — the part from the last dot on — provided that dot lies after
the last path separator and the characters between separator and dot are
not all dots. -/
def splitextRootL (l : List Char) : List Char :=
  match rlast (fun c => c == '.') l with
  | none => l
  | some d =>
    let i := match rlast (fun c => c == '/') l with
             | none => 0
             | some si => si + 1
    if i ≤ d ∧ ((l.drop i).take (d - i)).any (fun c => c != '.') = true then
      l.take d
    else l

/-- `os.path.splitext(path)[0]` on strings. -/
def splitextRoot (s : String) : String := ⟨splitextRootL s.data⟩

/-- Line 123 of the source:
`out_path = os.path.splitext(excel_path)[0] + "_output.xlsx"`. -/
def out_path (excelPath : String) : String :=
  splitextRoot excelPath ++ "_output.xlsx"

/-- Side effects performed by `compute_restraint_score` beyond returning
its result, as data: the `df.to_excel(out_path)` write and the four
`print(...)` lines (each print modelled with the data it formats). -/
inductive Effect where
  | writeFile : String → Effect
  | printFile : String → Effect
  | printLengths : ℝ → ℝ → ℝ → ℝ → Effect
  | printScore : ℝ → Effect
  | printWrote : String → Effect

/-- The annotated output table: each surviving record with the four
computed columns `fdij`, `omega_ij`, `sigma_P`, `sigma_L` appended. -/
noncomputable def annotate (rs : List Record) (Ls Lx Ly Lz : ℝ) :
    List (Record × ℝ × ℝ × ℝ × ℝ) :=
  rs.map (fun r => (r, fdij r, omega_ij r, sigma_P rs Lx Ly Lz r, sigma_L rs Ls r))

/-- The effect trace of lines 123–129 of the source, in program order:
write the output workbook, then print the file name, the lengths, the
score and the output path. -/
noncomputable def scoreEffects (excelPath : String) (Ls Lx Ly Lz sc : ℝ) :
    List Effect :=
  [Effect.writeFile (out_path excelPath),
   Effect.printFile excelPath,
   Effect.printLengths Ls Lx Ly Lz,
   Effect.printScore sc,
   Effect.printWrote (out_path excelPath)]

/-- Errors of the whole `compute_restraint_score` pipeline. -/
inductive RunError where
  | dataFormat : RunError
  | missingColumns : List String → RunError
  | emptyData : RunError

/-- `compute_restraint_score(excel_path)`: read the lengths and the
table from the two views of the input, compute the score, and perform
the write/print side effects (returned here as an effect trace next to
the returned dataframe and score). -/
noncomputable def compute_restraint_score (excelPath : String)
    (g : Grid) (t : RawTable) :
    Except RunError ((List (Record × ℝ × ℝ × ℝ × ℝ) × ℝ) × List Effect) :=
  match read_lengths g with
  | none => .error .dataFormat
  | some (ls, lx, ly, lz) =>
    match read_restraint_table t with
    | .error (.missingColumns m) => .error (.missingColumns m)
    | .error .emptyData => .error .emptyData
    | .ok rs =>
      let sc := score rs ls lx ly lz
      .ok ((annotate rs ls lx ly lz, sc), scoreEffects excelPath ls lx ly lz sc)

/-- The two-record worked example of spec property P6:
record A = (0,0,0, sl=0, wi=1, dij=1.8), record B = (2,0,0, sl=2, wi=1,
dij=1.8), no extra columns. -/
noncomputable def exampleTable : List Record :=
  [⟨0, 0, 0, 0, 1, 1.8, []⟩, ⟨2, 0, 0, 2, 1, 1.8, []⟩]

/-- Forget the non-required (pass-through) columns of a record, keeping
the six required fields. -/
def clearExtra (r : Record) : Record :=
  ⟨r.x, r.y, r.z, r.sl, r.wi, r.dij, []⟩

/-- A concrete well-formed metadata grid: empty row 0, then the four
length cells at column 1 of rows 1–4. -/
noncomputable def exampleGrid : Grid :=
  [[],
   [⟨"Ls", none⟩, ⟨"1", some 1⟩],
   [⟨"Lx", none⟩, ⟨"1", some 1⟩],
   [⟨"Ly", none⟩, ⟨"1", some 1⟩],
   [⟨"Lz", none⟩, ⟨"1", some 1⟩]]

/-- A concrete clean table row holding all six required cells. -/
noncomputable def exampleRow : Row :=
  [("prot x coor", ⟨"0", some 0⟩), ("prot y coor", ⟨"0", some 0⟩),
   ("prot z coor", ⟨"0", some 0⟩), ("sl", ⟨"0", some 0⟩),
   ("wi", ⟨"1", some 1⟩), ("dij", ⟨"1.8", some 1.8⟩)]

/-- A concrete well-formed raw table with the six required columns and
one clean row. -/
noncomputable def exampleRawTable : RawTable :=
  ⟨REQUIRED_COLUMNS, [exampleRow]⟩

/-- A concrete dirty table row: its `dij` cell fails numeric coercion,
so cleaning drops the whole row. -/
noncomputable def exampleDirtyRow : Row :=
  [("prot x coor", ⟨"0", some 0⟩), ("prot y coor", ⟨"0", some 0⟩),
   ("prot z coor", ⟨"0", some 0⟩), ("sl", ⟨"0", some 0⟩),
   ("wi", ⟨"1", some 1⟩), ("dij", ⟨"n/a", none⟩)]

/-! ## Helper lemmas -/

/-- Dividing every summand by a constant divides the sum. -/
lemma sum_map_div {α : Type} (l : List α) (f : α → ℝ) (c : ℝ) :
    (l.map (fun a => f a / c)).sum = (l.map f).sum / c := by
  simpa [div_eq_mul_inv] using List.sum_map_mul_right l f c⁻¹

/-- The n·(1/n) structure cancels per term: on every non-empty record
list the source's score coincides with the simplified formula in which
the per-record division by n and the final multiplication by n are both
removed. -/
lemma score_eq_simplifiedScore (rs : List Record) (Ls Lx Ly Lz : ℝ)
    (h : 1 ≤ rs.length) :
    score rs Ls Lx Ly Lz = simplifiedScore rs Ls Lx Ly Lz := by
  have hn : (rs.length : ℝ) ≠ 0 := Nat.cast_ne_zero.mpr (by omega)
  have hmap : rs.map (fun r => omega_ij r * (sigma_P rs Lx Ly Lz r + sigma_L rs Ls r))
      = rs.map (fun r => (omega_ij r *
          (((r.x - mu_x rs) / Lx) ^ 2 + ((r.y - mu_y rs) / Ly) ^ 2 +
           ((r.z - mu_z rs) / Lz) ^ 2 + ((r.sl - mu_s rs) / Ls) ^ 2)) / (rs.length : ℝ)) :=
    List.map_congr_left (fun r _ => by
      simp only [sigma_P, sigma_L]
      ring)
  unfold score simplifiedScore
  rw [hmap, sum_map_div, div_mul_cancel₀ _ hn]

/-- Rows kept by `filterMap` and rows dropped because `f` returns `none`
partition the input. -/
lemma length_filterMap_add_dropped {α β : Type} (f : α → Option β) (l : List α) :
    (l.filterMap f).length + (l.filter (fun a => (f a).isNone)).length = l.length := by
  induction l with
  | nil => simp
  | cons a l ih =>
    cases h : f a with
    | none => simp [List.filterMap_cons, List.filter_cons, h]; omega
    | some b => simp [List.filterMap_cons, List.filter_cons, h]; omega

/-- With every required column present, the missing-column list computed
by the reader is empty. -/
lemma missing_nil_of_complete (cols : List String)
    (hcols : ∀ c ∈ REQUIRED_COLUMNS, c ∈ cols) :
    REQUIRED_COLUMNS.filter (fun c => !(cols.contains c)) = [] := by
  rw [List.filter_eq_nil_iff]
  intro c hc
  simp [List.elem_iff, hcols c hc]

/-- `rlast` finds nothing when no character matches. -/
lemma rlast_eq_none {p : Char → Bool} {l : List Char}
    (h : ∀ c ∈ l, p c = false) : rlast p l = none := by
  induction l with
  | nil => rfl
  | cons c cs ih =>
    simp [rlast, ih (fun d hd => h d (List.mem_cons_of_mem c hd)),
          h c (List.mem_cons_self c cs)]

/-- `rlast` over an append prefers a match in the right part and shifts
its index by the left part's length. -/
lemma rlast_append (p : Char → Bool) (l1 l2 : List Char) :
    rlast p (l1 ++ l2) =
      match rlast p l2 with
      | some i => some (l1.length + i)
      | none => rlast p l1 := by
  induction l1 with
  | nil =>
    cases h2 : rlast p l2 <;> simp [h2, rlast]
  | cons c cs ih =>
    show (match rlast p (cs ++ l2) with
          | some i => some (i + 1)
          | none => if p c then some 0 else none) = _
    rw [ih]
    cases h2 : rlast p l2 with
    | some i =>
      simp only [List.length_cons]
      congr 1
      omega
    | none => rfl

/-! ## Claim theorems -/

/-- C2 (counterexample): the claim that the trailing multiplication by n
differs in exact arithmetic from the simplified formula on some table is
false: no record list with n ≥ 1 and no lengths make `score` differ from
`simplifiedScore`. -/
theorem score_simplification_never_differs :
    ¬ ∃ (rs : List Record) (Ls Lx Ly Lz : ℝ),
        1 ≤ rs.length ∧ score rs Ls Lx Ly Lz ≠ simplifiedScore rs Ls Lx Ly Lz := by
  rintro ⟨rs, Ls, Lx, Ly, Lz, h1, h2⟩
  exact h2 (score_eq_simplifiedScore rs Ls Lx Ly Lz h1)

/-- C2 (amended): the n/n structure is a no-op in exact arithmetic even
though `omega_ij` varies per record: for every table with n ≥ 1 records,
`score` equals the simplified formula with both the per-record division
by n and the final multiplication by n removed. The divide-then-multiply
shape is a formula contract of the source, not a numerical difference. -/
theorem score_cancellation_is_exact (rs : List Record) (Ls Lx Ly Lz : ℝ)
    (h : 1 ≤ rs.length) :
    score rs Ls Lx Ly Lz = simplifiedScore rs Ls Lx Ly Lz :=
  score_eq_simplifiedScore rs Ls Lx Ly Lz h

/-- C2 (witness): the amended cancellation theorem evaluated on a
concrete one-record table. -/
theorem score_cancellation_is_exact_witness :
    score [⟨0, 0, 0, 0, 1, 1.8, []⟩] 1 1 1 1 =
      simplifiedScore [⟨0, 0, 0, 0, 1, 1.8, []⟩] 1 1 1 1 :=
  score_cancellation_is_exact [⟨0, 0, 0, 0, 1, 1.8, []⟩] 1 1 1 1 (by simp)

/-- C1: the evaluator computes exactly the specified per-record
quantities — `fdij = exp(-(dij - 1.8))`, `omega_ij = wi * fdij`, and the
dispersion terms around the unweighted means, each divided by n — and
returns n times their weighted sum; on the two-record P6 example with
all lengths 1 the score is 4.0 within 1e-9. -/
theorem score_formula_and_P6_example :
    (∀ (rs : List Record) (Ls Lx Ly Lz : ℝ), 1 ≤ rs.length →
      score rs Ls Lx Ly Lz =
        (rs.length : ℝ) *
          (rs.map (fun r =>
            (r.wi * Real.exp (-(r.dij - 1.8))) *
              ((((r.x - mean (rs.map Record.x)) / Lx) ^ 2 +
                ((r.y - mean (rs.map Record.y)) / Ly) ^ 2 +
                ((r.z - mean (rs.map Record.z)) / Lz) ^ 2) / (rs.length : ℝ) +
               ((r.sl - mean (rs.map Record.sl)) / Ls) ^ 2 / (rs.length : ℝ)))).sum)
    ∧ |score exampleTable 1 1 1 1 - 4| ≤ 1e-9 := by
  constructor
  · intro rs Ls Lx Ly Lz h
    unfold score omega_ij fdij sigma_P sigma_L mu_x mu_y mu_z mu_s D0
    exact mul_comm _ _
  · have h4 : score exampleTable 1 1 1 1 = 4 := by
      simp [score, omega_ij, fdij, sigma_P, sigma_L, mu_x, mu_y, mu_z, mu_s, mean,
            exampleTable, D0]
      norm_num
    rw [h4]
    norm_num

/-- C1 (witness): the formula part instantiated on the concrete P6
example table with all lengths 1. -/
theorem score_formula_and_P6_example_witness :
    score exampleTable 1 1 1 1 =
      (exampleTable.length : ℝ) *
        (exampleTable.map (fun r =>
          (r.wi * Real.exp (-(r.dij - 1.8))) *
            ((((r.x - mean (exampleTable.map Record.x)) / 1) ^ 2 +
              ((r.y - mean (exampleTable.map Record.y)) / 1) ^ 2 +
              ((r.z - mean (exampleTable.map Record.z)) / 1) ^ 2) / (exampleTable.length : ℝ) +
             ((r.sl - mean (exampleTable.map Record.sl)) / 1) ^ 2 / (exampleTable.length : ℝ)))).sum :=
  score_formula_and_P6_example.1 exampleTable 1 1 1 1 (by norm_num [exampleTable])

/-- C10: with nonnegative weights and nonzero lengths the score is
nonnegative: `fdij` is strictly positive, the dispersion terms are
nonnegative, so every summand and the final product with n are ≥ 0. -/
theorem score_nonneg (rs : List Record) (Ls Lx Ly Lz : ℝ)
    (hw : ∀ r ∈ rs, 0 ≤ r.wi)
    (hLs : Ls ≠ 0) (hLx : Lx ≠ 0) (hLy : Ly ≠ 0) (hLz : Lz ≠ 0) :
    0 ≤ score rs Ls Lx Ly Lz := by
  unfold score
  apply mul_nonneg _ (Nat.cast_nonneg rs.length)
  apply List.sum_nonneg
  intro v hv
  obtain ⟨r, hr, rfl⟩ := List.mem_map.mp hv
  have homega : 0 ≤ omega_ij r :=
    mul_nonneg (hw r hr) (Real.exp_pos _).le
  have hsp : 0 ≤ sigma_P rs Lx Ly Lz r := by
    unfold sigma_P
    positivity
  have hsl : 0 ≤ sigma_L rs Ls r := by
    unfold sigma_L
    positivity
  exact mul_nonneg homega (add_nonneg hsp hsl)

/-- C10 (witness): nonnegativity on the concrete P6 example table with
all lengths 1. -/
theorem score_nonneg_witness : 0 ≤ score exampleTable 1 1 1 1 :=
  score_nonneg exampleTable 1 1 1 1
    (by intro r hr; fin_cases hr <;> norm_num [exampleTable])
    one_ne_zero one_ne_zero one_ne_zero one_ne_zero

/-- Forgetting the pass-through columns of every record leaves the score
unchanged: the evaluator reads only the six required fields. -/
lemma score_map_clearExtra (rs : List Record) (Ls Lx Ly Lz : ℝ) :
    score (rs.map clearExtra) Ls Lx Ly Lz = score rs Ls Lx Ly Lz := by
  have hx : (rs.map clearExtra).map Record.x = rs.map Record.x := by
    rw [List.map_map]; exact List.map_congr_left (fun r _ => rfl)
  have hy : (rs.map clearExtra).map Record.y = rs.map Record.y := by
    rw [List.map_map]; exact List.map_congr_left (fun r _ => rfl)
  have hz : (rs.map clearExtra).map Record.z = rs.map Record.z := by
    rw [List.map_map]; exact List.map_congr_left (fun r _ => rfl)
  have hs : (rs.map clearExtra).map Record.sl = rs.map Record.sl := by
    rw [List.map_map]; exact List.map_congr_left (fun r _ => rfl)
  unfold score sigma_P sigma_L mu_x mu_y mu_z mu_s
  rw [List.map_map, List.length_map, hx, hy, hz, hs]
  congr 1

/-- C9: non-required columns play no role in scoring — two cleaned
tables that agree on the six required fields of every record, evaluated
with equal length parameters, yield equal scores whatever extra columns
either carries. -/
theorem score_ignores_extra_columns (rs1 rs2 : List Record) (Ls Lx Ly Lz : ℝ)
    (h : rs1.map clearExtra = rs2.map clearExtra) :
    score rs1 Ls Lx Ly Lz = score rs2 Ls Lx Ly Lz := by
  rw [← score_map_clearExtra rs1, h, score_map_clearExtra]

/-- C9 (witness): two one-record tables differing only in an extra
column have the same score. -/
theorem score_ignores_extra_columns_witness :
    score [⟨0, 0, 0, 0, 1, 1.8, [("note", ⟨"kept", none⟩)]⟩] 1 1 1 1 =
      score [⟨0, 0, 0, 0, 1, 1.8, []⟩] 1 1 1 1 :=
  score_ignores_extra_columns
    [⟨0, 0, 0, 0, 1, 1.8, [("note", ⟨"kept", none⟩)]⟩]
    [⟨0, 0, 0, 0, 1, 1.8, []⟩] 1 1 1 1 rfl

/-- C3: with any non-empty subset of the required columns missing, the
reader fails with an error listing exactly the missing columns
(order-independent set equality), and the outcome is the same whatever
the data rows hold — the check precedes coercion and dropping. -/
theorem read_table_missing_columns (cols : List String) (rows rows2 : List Row)
    (h : ∃ c ∈ REQUIRED_COLUMNS, c ∉ cols) :
    ∃ m, read_restraint_table ⟨cols, rows⟩ = .error (.missingColumns m) ∧
      (∀ c, c ∈ m ↔ c ∈ REQUIRED_COLUMNS ∧ c ∉ cols) ∧
      read_restraint_table ⟨cols, rows2⟩ = .error (.missingColumns m) := by
  obtain ⟨c, hc, hnc⟩ := h
  have hmem : c ∈ REQUIRED_COLUMNS.filter (fun d => !(cols.contains d)) :=
    List.mem_filter.mpr ⟨hc, by simp [List.elem_iff, hnc]⟩
  have hne : ¬ ((REQUIRED_COLUMNS.filter (fun d => !(cols.contains d))).isEmpty = true) := by
    rw [List.isEmpty_iff]
    exact List.ne_nil_of_mem hmem
  refine ⟨REQUIRED_COLUMNS.filter (fun d => !(cols.contains d)), ?_, ?_, ?_⟩
  · simp only [read_restraint_table]
    rw [if_neg hne]
  · intro d
    simp [List.mem_filter, List.elem_iff]
  · simp only [read_restraint_table]
    rw [if_neg hne]

/-- C3 (witness): a table missing the two coordinate columns `prot y
coor` and `prot z coor` is rejected with exactly those two names,
independently of the rows. -/
theorem read_table_missing_columns_witness :
    ∃ m, read_restraint_table ⟨["prot x coor", "sl", "wi", "dij"], []⟩ =
          .error (.missingColumns m) ∧
      (∀ c, c ∈ m ↔ c ∈ REQUIRED_COLUMNS ∧ c ∉ ["prot x coor", "sl", "wi", "dij"]) ∧
      read_restraint_table ⟨["prot x coor", "sl", "wi", "dij"], [exampleRow]⟩ =
        .error (.missingColumns m) :=
  read_table_missing_columns ["prot x coor", "sl", "wi", "dij"] [] [exampleRow]
    (by decide)

/-- C4 (amended): with all required columns present and at least one
clean row (k < n), the reader succeeds; the cleaned table has exactly
n − k rows where k is the number of rows with a required cell failing
coercion — dropping is row-wise — and every returned record originates
from a surviving row, its six required fields numeric. -/
theorem read_table_drops_dirty_rows (cols : List String) (rows : List Row)
    (hcols : ∀ c ∈ REQUIRED_COLUMNS, c ∈ cols)
    (hsome : ∃ row ∈ rows, (cleanRow row).isSome) :
    ∃ recs, read_restraint_table ⟨cols, rows⟩ = .ok recs ∧
      recs.length =
        rows.length - (rows.filter (fun row => (cleanRow row).isNone)).length ∧
      ∀ rec ∈ recs, ∃ row ∈ rows, cleanRow row = some rec := by
  obtain ⟨row, hrow, hrsome⟩ := hsome
  obtain ⟨rec, hrec⟩ := Option.isSome_iff_exists.mp hrsome
  have hne : ¬ ((rows.filterMap cleanRow).isEmpty = true) := by
    rw [List.isEmpty_iff]
    exact List.ne_nil_of_mem (List.mem_filterMap.mpr ⟨row, hrow, hrec⟩)
  refine ⟨rows.filterMap cleanRow, ?_, ?_, ?_⟩
  · simp only [read_restraint_table, missing_nil_of_complete cols hcols]
    simp only [List.isEmpty_nil, if_true]
    rw [if_neg hne]
  · have := length_filterMap_add_dropped cleanRow rows
    have hle := List.length_filter_le (fun row => (cleanRow row).isNone) rows
    omega
  · intro rec2 hrec2
    exact List.mem_filterMap.mp hrec2

/-- C4 (witness): a two-row table whose second row has a non-numeric
`dij` yields exactly one cleaned record. -/
theorem read_table_drops_dirty_rows_witness :
    ∃ recs, read_restraint_table ⟨REQUIRED_COLUMNS, [exampleRow, exampleDirtyRow]⟩ =
          .ok recs ∧
      recs.length = [exampleRow, exampleDirtyRow].length -
        ([exampleRow, exampleDirtyRow].filter
          (fun row => (cleanRow row).isNone)).length ∧
      ∀ rec ∈ recs, ∃ row ∈ [exampleRow, exampleDirtyRow], cleanRow row = some rec :=
  read_table_drops_dirty_rows REQUIRED_COLUMNS [exampleRow, exampleDirtyRow]
    (fun c hc => hc) ⟨exampleRow, by simp, by rfl⟩

/-- C4 (counterexample): at the edge k = n the claim fails — with its
single row dirty, the reader does not return the (n − k = 0)-row table
the claim asks for, but raises the emptiness error. -/
theorem read_table_all_dirty_no_empty_table :
    read_restraint_table ⟨REQUIRED_COLUMNS, [exampleDirtyRow]⟩ =
        .error .emptyData ∧
      read_restraint_table ⟨REQUIRED_COLUMNS, [exampleDirtyRow]⟩ ≠
        .ok ([] : List Record) := by
  refine ⟨rfl, fun hcontra => ?_⟩
  have h0 : (Except.error TableError.emptyData : Except TableError (List Record)) =
      .ok [] := hcontra
  simp at h0

/-- C5: given all required columns, the reader fails with the emptiness
error exactly when every row is dirty; when some row survives cleaning
it returns a non-empty record list. -/
theorem read_table_empty_iff_all_dirty (cols : List String) (rows : List Row)
    (hcols : ∀ c ∈ REQUIRED_COLUMNS, c ∈ cols) :
    (read_restraint_table ⟨cols, rows⟩ = .error .emptyData ↔
      ∀ row ∈ rows, cleanRow row = none) ∧
    ((∃ row ∈ rows, cleanRow row ≠ none) →
      ∃ recs, recs ≠ [] ∧ read_restraint_table ⟨cols, rows⟩ = .ok recs) := by
  have hm := missing_nil_of_complete cols hcols
  by_cases hFM : rows.filterMap cleanRow = []
  · constructor
    · simp only [read_restraint_table, hm, List.isEmpty_nil, if_true, hFM]
      simp only [List.isEmpty_nil, if_true, true_iff]
      exact List.filterMap_eq_nil_iff.mp hFM
    · intro hex
      obtain ⟨row, hrow, hne⟩ := hex
      exact absurd (List.filterMap_eq_nil_iff.mp hFM row hrow) hne
  · have hne : ¬ ((rows.filterMap cleanRow).isEmpty = true) := by
      rw [List.isEmpty_iff]; exact hFM
    constructor
    · simp only [read_restraint_table, hm, List.isEmpty_nil, if_true]
      rw [if_neg hne]
      constructor
      · intro hcontra
        exact absurd hcontra (by simp)
      · intro hall
        exact absurd (List.filterMap_eq_nil_iff.mpr hall) hFM
    · intro _
      refine ⟨rows.filterMap cleanRow, hFM, ?_⟩
      simp only [read_restraint_table, hm, List.isEmpty_nil, if_true]
      rw [if_neg hne]

/-- C5 (witness): on a table whose single row is dirty the reader
reports emptiness, and with a clean row present it returns records. -/
theorem read_table_empty_iff_all_dirty_witness :
    (read_restraint_table ⟨REQUIRED_COLUMNS, [exampleDirtyRow]⟩ = .error .emptyData ↔
      ∀ row ∈ [exampleDirtyRow], cleanRow row = none) ∧
    ((∃ row ∈ [exampleDirtyRow], cleanRow row ≠ none) →
      ∃ recs, recs ≠ [] ∧
        read_restraint_table ⟨REQUIRED_COLUMNS, [exampleDirtyRow]⟩ = .ok recs) :=
  read_table_empty_iff_all_dirty REQUIRED_COLUMNS [exampleDirtyRow] (fun c hc => hc)

/-- C6: whenever the four fixed cells (1,1)–(4,1) hold numeric values,
`read_lengths` returns exactly those values as (Ls, Lx, Ly, Lz); and the
result depends on nothing but those four cells — any second grid
agreeing there gives the same result. -/
theorem read_lengths_fixed_cells (g g2 : Grid) (ls lx ly lz : ℝ)
    (h1 : lengthCell g 1 1 = some ls) (h2 : lengthCell g 2 1 = some lx)
    (h3 : lengthCell g 3 1 = some ly) (h4 : lengthCell g 4 1 = some lz)
    (e1 : lengthCell g2 1 1 = lengthCell g 1 1)
    (e2 : lengthCell g2 2 1 = lengthCell g 2 1)
    (e3 : lengthCell g2 3 1 = lengthCell g 3 1)
    (e4 : lengthCell g2 4 1 = lengthCell g 4 1) :
    read_lengths g = some (ls, lx, ly, lz) ∧ read_lengths g2 = read_lengths g := by
  constructor
  · simp [read_lengths, h1, h2, h3, h4]
  · simp [read_lengths, e1, e2, e3, e4]

/-- C6 (witness): the theorem evaluated on the concrete example grid and
a second grid that differs everywhere outside the four length cells. -/
theorem read_lengths_fixed_cells_witness :
    read_lengths exampleGrid = some (1, 1, 1, 1) ∧
      read_lengths
        [[⟨"title", none⟩],
         [⟨"x", some 7⟩, ⟨"1", some 1⟩, ⟨"y", some 8⟩],
         [⟨"x", some 7⟩, ⟨"1", some 1⟩],
         [⟨"x", some 7⟩, ⟨"1", some 1⟩],
         [⟨"x", some 7⟩, ⟨"1", some 1⟩],
         [⟨"junk", none⟩]] = read_lengths exampleGrid :=
  read_lengths_fixed_cells exampleGrid
    [[⟨"title", none⟩],
     [⟨"x", some 7⟩, ⟨"1", some 1⟩, ⟨"y", some 8⟩],
     [⟨"x", some 7⟩, ⟨"1", some 1⟩],
     [⟨"x", some 7⟩, ⟨"1", some 1⟩],
     [⟨"x", some 7⟩, ⟨"1", some 1⟩],
     [⟨"junk", none⟩]]
    1 1 1 1 rfl rfl rfl rfl rfl rfl rfl rfl

/-- C8 (counterexample): the output path does not preserve the input
path's extension — a `.csv` input yields a `.xlsx` output artifact, not
the `_output.csv` name the claim requires. -/
theorem out_path_example_changes_extension :
    out_path "data.csv" = "data_output.xlsx" ∧
      ("data_output.xlsx" : String) ≠ "data_output.csv" := by
  constructor
  · rfl
  · decide

/-- C8 (amended): the output path is the input path with its extension
removed and `_output.xlsx` appended — the artifact's extension is always
`.xlsx` regardless of the input's; the two agree only for `.xlsx`
inputs. Stated for paths of the shape `stem.ext` with a non-empty stem
and no further dots or separators. -/
theorem out_path_strips_extension (stem ext : List Char) (hne : stem ≠ [])
    (hstem : ∀ c ∈ stem, c ≠ '.' ∧ c ≠ '/')
    (hext : ∀ c ∈ ext, c ≠ '.' ∧ c ≠ '/') :
    out_path ⟨stem ++ '.' :: ext⟩ = ⟨stem ++ ("_output.xlsx").data⟩ := by
  have hextnone : rlast (fun c => c == '.') ext = none :=
    rlast_eq_none (fun c hc => by simp [(hext c hc).1])
  have hdot : rlast (fun c => c == '.') (stem ++ '.' :: ext) = some stem.length := by
    rw [rlast_append]
    have h2 : rlast (fun c => c == '.') ('.' :: ext) = some 0 := by
      simp [rlast, hextnone]
    rw [h2]
    simp
  have hslash : rlast (fun c => c == '/') (stem ++ '.' :: ext) = none := by
    apply rlast_eq_none
    intro c hc
    rcases List.mem_append.mp hc with h | h
    · simp [(hstem c h).2]
    · rcases List.mem_cons.mp h with h | h
      · simp [h]
      · simp [(hext c h).2]
  have hroot : splitextRootL (stem ++ '.' :: ext) = stem := by
    unfold splitextRootL
    simp only [hdot, hslash]
    rw [if_pos]
    · exact List.take_left stem ('.' :: ext)
    · refine ⟨Nat.zero_le _, ?_⟩
      simp only [Nat.sub_zero, List.drop_zero]
      rw [List.take_left]
      obtain ⟨c, hc⟩ := List.exists_mem_of_ne_nil stem hne
      exact List.any_eq_true.mpr ⟨c, hc, by simp [(hstem c hc).1]⟩
  show splitextRoot ⟨stem ++ '.' :: ext⟩ ++ "_output.xlsx" = ⟨stem ++ ("_output.xlsx").data⟩
  unfold splitextRoot
  show (⟨splitextRootL (stem ++ '.' :: ext)⟩ : String) ++ "_output.xlsx" =
    ⟨stem ++ ("_output.xlsx").data⟩
  rw [hroot]
  rfl

/-- C8 (witness): the amended theorem evaluated at the concrete path
`data.csv`, giving `data_output.xlsx`. -/
theorem out_path_strips_extension_witness :
    out_path ⟨("data").data ++ '.' :: ("csv").data⟩ =
      ⟨("data").data ++ ("_output.xlsx").data⟩ :=
  out_path_strips_extension ("data").data ("csv").data (by decide)
    (by decide) (by decide)

/-- C7 (counterexample): on a concrete well-formed input the evaluator's
run carries side effects: its effect trace starts with writing the
output artifact and has five entries (the write plus four prints), so
the component is not free of side effects beyond returning the result. -/
theorem compute_score_not_effect_free :
    (compute_restraint_score "in.xlsx" exampleGrid exampleRawTable).map
        (fun r => r.2.head?) = .ok (some (Effect.writeFile "in_output.xlsx")) ∧
      (compute_restraint_score "in.xlsx" exampleGrid exampleRawTable).map
        (fun r => r.2.length) = .ok 5 := by
  constructor <;> rfl

/-- C7 (amended): `compute_restraint_score` itself writes the output
artifact and prints the report — every successful run's effect trace is
non-empty, contains the write of the derived output path, and has
exactly five entries (one write, four prints); the annotated table and
score are returned in addition to these effects, not instead of them. -/
theorem compute_score_effects_on_success (p : String) (g : Grid) (t : RawTable)
    (res : List (Record × ℝ × ℝ × ℝ × ℝ) × ℝ) (effs : List Effect)
    (h : compute_restraint_score p g t = .ok (res, effs)) :
    effs ≠ [] ∧ Effect.writeFile (out_path p) ∈ effs ∧ effs.length = 5 := by
  unfold compute_restraint_score at h
  cases hg : read_lengths g with
  | none =>
    rw [hg] at h
    simp at h
  | some q =>
    obtain ⟨ls, lx, ly, lz⟩ := q
    rw [hg] at h
    cases ht : read_restraint_table t with
    | error e =>
      rw [ht] at h
      cases e <;> simp at h
    | ok rs =>
      rw [ht] at h
      simp only [Except.ok.injEq, Prod.mk.injEq] at h
      obtain ⟨-, heffs⟩ := h
      subst heffs
      refine ⟨by simp [scoreEffects], ?_, by simp [scoreEffects]⟩
      simp [scoreEffects]

/-- C7 (witness): the amended theorem evaluated on a concrete
successful run. -/
theorem compute_score_effects_on_success_witness :
    (scoreEffects "in.xlsx" 1 1 1 1
        (score (exampleRawTable.rows.filterMap cleanRow) 1 1 1 1) ≠ []) ∧
      Effect.writeFile (out_path "in.xlsx") ∈
        scoreEffects "in.xlsx" 1 1 1 1
          (score (exampleRawTable.rows.filterMap cleanRow) 1 1 1 1) ∧
      (scoreEffects "in.xlsx" 1 1 1 1
        (score (exampleRawTable.rows.filterMap cleanRow) 1 1 1 1)).length = 5 :=
  compute_score_effects_on_success "in.xlsx" exampleGrid exampleRawTable
    (annotate (exampleRawTable.rows.filterMap cleanRow) 1 1 1 1,
      score (exampleRawTable.rows.filterMap cleanRow) 1 1 1 1)
    (scoreEffects "in.xlsx" 1 1 1 1
      (score (exampleRawTable.rows.filterMap cleanRow) 1 1 1 1))
    rfl

end Restraints
